import Mathlib

/-!
Shallow embedding of the Hello World GitHub Action (src/index.js) and proofs
of its specified properties.

The JavaScript source is modelled as follows:
- JavaScript string-or-nullish values passed to the greeting formatter are a
  small sum type with the template-literal coercion made explicit.
- The host platform (the @actions/core input store, process.env, the
  github.context repository identity, the octokit fetch outcome, and the
  behaviour of the mockable effectful calls) is a record of parameters.
- A run of the orchestrator is a pure function from that host record to a
  final run state: the ordered info log, warnings, outputs, registered
  secrets, the rendered summary (if any), a fetch-attempt counter, and the
  failure message (if any).
- Exceptions are modelled with Except: the one call site the test suite makes
  throw (core.setOutput) is given a host-controlled error, and the top-level
  try/catch of run converts an in-flight error into a setFailed message.
-/

namespace HelloAction

/-- A JavaScript value in string position: a string, null, or undefined. -/
inductive JSVal where
  | str (s : String)
  | nullV
  | undef
deriving DecidableEq

/-- Template-literal coercion of a JavaScript value to a string:
strings stay themselves, null renders as "null", undefined as "undefined". -/
def jsCoerce : JSVal → String
  | .str s => s
  | .nullV => "null"
  | .undef => "undefined"

/-- Source: createGreeting(prefix, name) returns the template literal
prefix ++ ", " ++ name ++ "!" after coercing each argument. -/
def createGreeting (pfx name : JSVal) : String :=
  jsCoerce pfx ++ ", " ++ jsCoerce name ++ "!"

/-- JavaScript truthiness of a string: nonempty. -/
def truthy (s : String) : Bool := s != ""

/-- JavaScript expression v two-pipe d on strings: d when v is falsy (empty). -/
def jsOrDefault (v d : String) : String := if v = "" then d else v

/-- Replacement of every dash by an underscore (the global-dash replace of the
source), character-wise. -/
def replaceDashes (s : String) : String :=
  String.mk (s.data.map (fun c => if c = '-' then '_' else c))

/-- ASCII uppercasing (toUpperCase on the ASCII input names this action
uses), character-wise. -/
def asciiUpper (s : String) : String :=
  String.mk (s.data.map Char.toUpper)

/-- ASCII lowercasing (toLowerCase on the boolean-ish input literals),
character-wise. -/
def asciiLower (s : String) : String :=
  String.mk (s.data.map Char.toLower)

/-- The environment-variable name used by the fallback lookup of getInput:
INPUT_ prefixed to the name with dashes replaced by underscores, uppercased. -/
def envVarName (name : String) : String :=
  "INPUT_" ++ asciiUpper (replaceDashes name)

/-- Source: getInput(name). First core.getInput (the structured store, empty
string when unset); when that is empty, the environment variable under the
transformed name, with a missing or empty variable yielding the empty string. -/
def getInput (store : String → String) (env : String → Option String)
    (name : String) : String :=
  let value := store name
  if value = "" then
    match env (envVarName name) with
    | some s => s
    | none => ""
  else value

/-- Source: getBooleanInput(name) lower-cases the resolved input and compares
with the accepted literals. -/
def getBooleanInput (store : String → String) (env : String → Option String)
    (name : String) : Bool :=
  let input := asciiLower (getInput store env name)
  input == "true" || input == "1" || input == "yes"

/-- The shape of the octokit repository response fields read by getRepoStats. -/
structure RepoData where
  full_name : String
  stargazers_count : Nat
  forks_count : Nat
  open_issues_count : Nat
  language : Option String
  size : Nat
  created_at : String
  updated_at : String
deriving DecidableEq

/-- The RepoStats record built by getRepoStats on success. -/
structure RepoStats where
  name : String
  stars : Nat
  forks : Nat
  issues : Nat
  language : Option String
  size : Nat
  created : String
  updated : String
deriving DecidableEq

/-- Source: getRepoStats(token, owner, repo). The awaited octokit fetch either
resolves with repository data or rejects with an error message; on success the
fields are renamed into the RepoStats shape, on failure a single warning
"Failed to fetch repository stats: " ++ message is emitted and null returned.
The returned pair is the result together with the warnings emitted. -/
def getRepoStats (_token _owner _repo : String) (fetch : Except String RepoData) :
    Option RepoStats × List String :=
  match fetch with
  | .ok repoData =>
      (some { name := repoData.full_name
              stars := repoData.stargazers_count
              forks := repoData.forks_count
              issues := repoData.open_issues_count
              language := repoData.language
              size := repoData.size
              created := repoData.created_at
              updated := repoData.updated_at }, [])
  | .error e => (none, ["Failed to fetch repository stats: " ++ e])

/-- A lowercase hexadecimal digit, as used by the JSON control-character escape. -/
def hexDigit (n : Nat) : String :=
  String.singleton (if n < 10 then Char.ofNat (48 + n) else Char.ofNat (87 + n))

/-- JSON.stringify escaping of one character inside a string literal. -/
def jsonEscapeChar (c : Char) : String :=
  if c = '"' then "\\\""
  else if c = '\\' then "\\\\"
  else if c = '\n' then "\\n"
  else if c = '\r' then "\\r"
  else if c = '\t' then "\\t"
  else if c = '\x08' then "\\b"
  else if c = '\x0c' then "\\f"
  else if c.toNat < 32 then "\\u00" ++ hexDigit (c.toNat / 16) ++ hexDigit (c.toNat % 16)
  else String.singleton c

/-- JSON.stringify of a string value. -/
def jsonString (s : String) : String :=
  "\"" ++ String.join (s.data.map jsonEscapeChar) ++ "\""

/-- JSON.stringify of an optional string (null when absent). -/
def jsonOptString : Option String → String
  | some s => jsonString s
  | none => "null"

/-- JSON.stringify of the RepoStats object, keys in insertion order. -/
def jsonStringifyRepoStats (r : RepoStats) : String :=
  "\x7b\"name\":" ++ jsonString r.name ++
  ",\"stars\":" ++ toString r.stars ++
  ",\"forks\":" ++ toString r.forks ++
  ",\"issues\":" ++ toString r.issues ++
  ",\"language\":" ++ jsonOptString r.language ++
  ",\"size\":" ++ toString r.size ++
  ",\"created\":" ++ jsonString r.created ++
  ",\"updated\":" ++ jsonString r.updated ++ "\x7d"

/-- The host platform surrounding one invocation of run: the structured input
store (core.getInput), the process environment, the github.context repository
identity, the outcome the octokit fetch would have, the error core.setOutput
throws with (none when it behaves normally, mirroring the mocked throw of the
test suite), whether the rich summary sink write rejects, and the wall-clock
instant getCurrentTime would return. -/
structure Host where
  store : String → String
  env : String → Option String
  ctxOwner : String
  ctxRepo : String
  fetchResult : Except String RepoData
  setOutputError : Option String
  summaryWriteFails : Bool
  now : String

/-- The observable state accumulated by one run: ordered core.info lines,
core.warning lines, named outputs, registered secrets, the summary table
rendered through the rich sink (heading and cell rows) when it succeeded,
how many times the stats fetch was attempted, and the setFailed message. -/
structure RunState where
  infoLog : List String := []
  warnings : List String := []
  outputs : List (String × String) := []
  secrets : List String := []
  summaryRendered : Option (String × List (List String)) := none
  fetchCount : Nat := 0
  failed : Option String := none
deriving DecidableEq

/-- Append one core.info line. -/
def logInfo (s : RunState) (line : String) : RunState :=
  { s with infoLog := s.infoLog ++ [line] }

/-- Append several core.info lines in order. -/
def logInfos (s : RunState) (lines : List String) : RunState :=
  { s with infoLog := s.infoLog ++ lines }

/-- The core.setOutput call: throws the host-configured error when present,
otherwise records the named output. The error carries the state at the throw. -/
def setOutputOp (h : Host) (name value : String) (s : RunState) :
    Except (String × RunState) RunState :=
  match h.setOutputError with
  | some m => .error (m, s)
  | none => .ok { s with outputs := s.outputs ++ [(name, value)] }

/-- The input resolution run performs through getInput against the host. -/
def hostInput (h : Host) (name : String) : String :=
  getInput h.store h.env name

/-- Resolved who-to-greet input (default "World"). -/
def resolvedWho (h : Host) : String :=
  jsOrDefault (hostInput h "who-to-greet") "World"

/-- Resolved include-time flag. -/
def resolvedIncludeTime (h : Host) : Bool :=
  getBooleanInput h.store h.env "include-time"

/-- Resolved message-prefix input (default "Hello"). -/
def resolvedMsgPre (h : Host) : String :=
  jsOrDefault (hostInput h "message-prefix") "Hello"

/-- Resolved github-token input (no default). -/
def resolvedToken (h : Host) : String :=
  hostInput h "github-token"

/-- The greeting a run computes from its resolved inputs. -/
def greetingOf (h : Host) : String :=
  createGreeting (.str (resolvedMsgPre h)) (.str (resolvedWho h))

/-- The five opening core.info lines of a run. The token line prints only
Yes or No, from the truthiness of the resolved token. -/
def startLines (h : Host) : List String :=
  ["Starting Hello World Action...",
   "Who to greet: " ++ resolvedWho h,
   "Message prefix: " ++ resolvedMsgPre h,
   "Include time: " ++ (if resolvedIncludeTime h then "true" else "false"),
   "GitHub token provided: " ++ (if truthy (resolvedToken h) then "Yes" else "No")]

/-- Every core.info line a run emits before it reaches the stats-fetch step:
the opening lines, the generated-greeting line, and the current-time line
when include-time is set. -/
def preFetchLog (h : Host) : List String :=
  startLines h ++ ["Generated greeting: " ++ greetingOf h] ++
    (if resolvedIncludeTime h then ["Current time: " ++ h.now] else [])

/-- The guard of the stats step: a truthy token and a truthy owner and repo
from the github context. -/
def statsAttempted (h : Host) : Bool :=
  truthy (resolvedToken h) && truthy h.ctxOwner && truthy h.ctxRepo

/-- The stats value a run holds after the optional fetch step. -/
def runStats (h : Host) : Option RepoStats :=
  if statsAttempted h then
    (getRepoStats (resolvedToken h) h.ctxOwner h.ctxRepo h.fetchResult).1
  else none

/-- The Language display value: the language field, Unknown when nullish. -/
def langDisplay : Option String → String
  | some s => if s = "" then "Unknown" else s
  | none => "Unknown"

/-- The core.info lines logged for a successfully fetched stats record. -/
def statsInfoLines (r : RepoStats) : List String :=
  ["Repository: " ++ r.name,
   "\u201a\u2260\u00ea Stars: " ++ toString r.stars,
   "üç¥ Forks: " ++ toString r.forks,
   "üêõ Open Issues: " ++ toString r.issues,
   "üìù Language: " ++ langDisplay r.language]

/-- The summary-table rows contributed by a fetched stats record. -/
def statsRows (r : RepoStats) : List (String × String) :=
  [("Repository", r.name),
   ("\u201a\u2260\u00ea Stars", toString r.stars),
   ("üç¥ Forks", toString r.forks),
   ("üêõ Open Issues", toString r.issues),
   ("üìù Language", langDisplay r.language)]

/-- The data rows of the summary table: the Greeting row, the Timestamp row
when a time was computed, and the stats rows when stats were fetched. -/
def dataRows (greeting : String) (timeVal : Option String)
    (stats : Option RepoStats) : List (String × String) :=
  [("Greeting", greeting)] ++
    (match timeVal with | some t => [("Timestamp", t)] | none => []) ++
    (match stats with | some r => statsRows r | none => [])

/-- The data rows a run builds, expressed from the host alone. -/
def runRows (h : Host) : List (String × String) :=
  dataRows (greetingOf h)
    (if resolvedIncludeTime h then some h.now else none) (runStats h)

/-- The full summary table handed to the rich sink: the Field|Value header
row followed by the data rows. -/
def fullTable (rows : List (String × String)) : List (List String) :=
  ["Field", "Value"] :: rows.map (fun p => [p.1, p.2])

/-- The heading handed to the rich summary sink. -/
def summaryHeading : String := "\uf8ff\u00fc\u00e9\u00d8 Hello World Action Results"

/-- The console fallback lines when the rich summary sink is unavailable:
a heading line and one line per data row (the table without its header). -/
def fallbackLines (rows : List (String × String)) : List String :=
  "üìä Hello World Action Results:" ::
    rows.map (fun p => "   " ++ p.1 ++ ": " ++ p.2)

/-- The core.info lines emitted by the stats-fetch step. -/
def fetchLog (h : Host) : List String :=
  if statsAttempted h then
    "Fetching repository statistics..." ::
      (match runStats h with | some r => statsInfoLines r | none => [])
  else []

/-- The body of run, inside its top-level try: the sequenced steps, with the
state carried through and a thrown error surfacing as Except.error together
with the state at the throw. -/
def runBody (h : Host) : Except (String × RunState) RunState := do
  let includeTime := resolvedIncludeTime h
  let greeting := greetingOf h
  let s := logInfos {} (startLines h)
  let s := logInfo s ("Generated greeting: " ++ greeting)
  let s ← setOutputOp h "message" greeting s
  let (s, currentTime) ←
    if includeTime then do
      let t := h.now
      let s := logInfo s ("Current time: " ++ t)
      let s ← setOutputOp h "time" t s
      pure (s, some t)
    else pure (s, none)
  let (s, repoStats) ←
    if statsAttempted h then do
      let s := logInfo s "Fetching repository statistics..."
      let s := { s with fetchCount := s.fetchCount + 1 }
      let fetched := getRepoStats (resolvedToken h) h.ctxOwner h.ctxRepo h.fetchResult
      let s := { s with warnings := s.warnings ++ fetched.2 }
      match fetched.1 with
      | some r => do
          let s := logInfos s (statsInfoLines r)
          let s ← setOutputOp h "repo-stats" (jsonStringifyRepoStats r) s
          pure (s, some r)
      | none => pure (s, none)
    else pure (s, none)
  let s := { s with secrets := s.secrets ++ ["my-secret-value"] }
  let rows := dataRows greeting currentTime repoStats
  let s :=
    if h.summaryWriteFails then
      logInfos s (fallbackLines rows)
    else { s with summaryRendered := some (summaryHeading, fullTable rows) }
  let s := logInfo s "\u201a\u00fa\u00d6 Action completed successfully!"
  pure s

/-- Source: run(). Executes the body; an uncaught error is converted by the
top-level catch into a setFailed message and run returns normally. -/
def run (h : Host) : RunState :=
  match runBody h with
  | .ok s => s
  | .error (m, s) => { s with failed := some ("Action failed with error: " ++ m) }

/-- Claim C1: for every pair of strings, createGreeting returns exactly
prefix ++ ", " ++ name ++ "!", including when either string is empty; being a
total Lean function it is pure and never throws. -/
theorem createGreeting_formats_exactly (pfx name : String) :
    createGreeting (JSVal.str pfx) (JSVal.str name) = pfx ++ ", " ++ name ++ "!" :=
  rfl

/-- Claim C10: nullish arguments of createGreeting are rendered by the
template-literal string coercion: a null prefix yields "null, " ++ name ++ "!"
and an undefined name yields prefix ++ ", undefined!", and the call never
throws (it is a total Lean function). -/
theorem createGreeting_nullish_coercion (pfx name : String) :
    createGreeting JSVal.nullV (JSVal.str name) = "null, " ++ name ++ "!" ∧
    createGreeting (JSVal.str pfx) JSVal.undef = pfx ++ ", undefined!" := by
  constructor
  · rfl
  · show pfx ++ ", " ++ "undefined" ++ "!" = pfx ++ ", undefined!"
    simp only [String.append_assoc]
    rfl

/-- Claim C3: when the underlying fetch rejects with any error message, the
getRepoStats call returns null, emits exactly one non-fatal warning whose text
contains the underlying message, and (being total) never propagates an
exception to its caller. -/
theorem getRepoStats_rejected_fetch (tok owner repo e : String) :
    getRepoStats tok owner repo (Except.error e) =
      (none, ["Failed to fetch repository stats: " ++ e]) :=
  rfl

/-- Claim C4: on a successful fetch response, getRepoStats returns the record
obtained from the response purely by field renaming - full_name to name,
stargazers_count to stars, forks_count to forks, open_issues_count to issues,
language to language, size to size, created_at to created, updated_at to
updated - with no transformation of the values, and emits no warning. -/
theorem getRepoStats_success_mapping (tok owner repo : String) (d : RepoData) :
    getRepoStats tok owner repo (Except.ok d) =
      (some { name := d.full_name
              stars := d.stargazers_count
              forks := d.forks_count
              issues := d.open_issues_count
              language := d.language
              size := d.size
              created := d.created_at
              updated := d.updated_at }, []) :=
  rfl

/-- Claim C6: getInput first consults the structured input store; when that
value is empty it falls back to the environment variable named by prefixing
INPUT_ to the name with dashes replaced by underscores and uppercased; when
neither source has a value it returns the empty string. The function is total,
so it never fails. -/
theorem getInput_lookup_spec (store : String → String)
    (env : String → Option String) (name : String) :
    (store name ≠ "" → getInput store env name = store name) ∧
    (store name = "" →
      getInput store env name =
        (env ("INPUT_" ++ asciiUpper (replaceDashes name))).getD "") ∧
    (store name = "" → env ("INPUT_" ++ asciiUpper (replaceDashes name)) = none →
      getInput store env name = "") := by
  refine ⟨fun hne => ?_, fun he => ?_, fun he hn => ?_⟩
  · simp [getInput, hne]
  · simp only [getInput, envVarName, he, if_pos rfl]
    cases env ("INPUT_" ++ asciiUpper (replaceDashes name)) <;> rfl
  · simp [getInput, envVarName, he, hn]

/-- A store with no values, for exercising the fallback path of getInput. -/
def emptyStore : String → String := fun _ => ""

/-- An environment holding only the transformed who-to-greet variable. -/
def localEnv : String → Option String := fun n =>
  if n = "INPUT_WHO_TO_GREET" then some "Local" else none

/-- Witness for C6: with an empty store and INPUT_WHO_TO_GREET set in the
environment, getInput "who-to-greet" resolves to the environment value. -/
theorem getInput_lookup_spec_witness :
    getInput emptyStore localEnv "who-to-greet" = "Local" := by
  rw [(getInput_lookup_spec emptyStore localEnv "who-to-greet").2.1 rfl]
  rfl

/-- Claim C2: when output-setting throws with any message, the run aborts the
remaining steps (no output recorded, no fetch attempted, no secret
registered, no summary rendered), reports failure with exactly
"Action failed with error: " followed by the message, and run, being a total
function, returns normally without propagating the exception. -/
theorem run_uncaught_error_sets_failed (h : Host) (m : String)
    (he : h.setOutputError = some m) :
    (run h).failed = some ("Action failed with error: " ++ m) ∧
    (run h).outputs = [] ∧ (run h).fetchCount = 0 ∧
    (run h).secrets = [] ∧ (run h).summaryRendered = none := by
  simp [run, runBody, setOutputOp, he, logInfo, logInfos, bind, Except.bind, pure, Except.pure]

/-- A host whose output-setting throws Error with message Test error. -/
def hostThrow : Host :=
  { store := emptyStore, env := fun _ => none, ctxOwner := "", ctxRepo := "",
    fetchResult := .error "down", setOutputError := some "Test error",
    summaryWriteFails := false, now := "2023-01-01T12:00:00.000Z" }

/-- Witness for C2: with the throwing host, the failure report message is
exactly "Action failed with error: Test error" and nothing was published. -/
theorem run_uncaught_error_sets_failed_witness :
    (run hostThrow).failed = some ("Action failed with error: " ++ "Test error") ∧
    (run hostThrow).outputs = [] ∧ (run hostThrow).fetchCount = 0 ∧
    (run hostThrow).secrets = [] ∧ (run hostThrow).summaryRendered = none :=
  run_uncaught_error_sets_failed hostThrow "Test error" rfl

/-- Claim C5: the repository-stats fetch is attempted only when both a
truthy token and a fully resolved owner and repo identity are present; when
any of them is absent the run makes no fetch and publishes no repo-stats
output. -/
theorem run_no_fetch_without_token_or_identity (h : Host)
    (hc : resolvedToken h = "" ∨ h.ctxOwner = "" ∨ h.ctxRepo = "") :
    (run h).fetchCount = 0 ∧ ∀ v, ("repo-stats", v) ∉ (run h).outputs := by
  have hs : statsAttempted h = false := by
    rcases hc with hc | hc | hc <;> simp [statsAttempted, truthy, hc]
  rcases hso : h.setOutputError with _ | m
  · rcases hit : resolvedIncludeTime h <;> rcases hsw : h.summaryWriteFails <;>
      simp [run, runBody, setOutputOp, hso, hit, hsw, hs, logInfo, logInfos, bind, Except.bind, pure, Except.pure]
  · simp [run, runBody, setOutputOp, hso, logInfo, logInfos, bind, Except.bind, pure, Except.pure]

/-- A host with no token, a resolved repository identity, and defaults. -/
def hostNoToken : Host :=
  { store := fun n => if n = "who-to-greet" then "World"
             else if n = "message-prefix" then "Hello" else "",
    env := fun _ => none, ctxOwner := "test-owner", ctxRepo := "test-repo",
    fetchResult := .error "down", setOutputError := none,
    summaryWriteFails := false, now := "2023-01-01T12:00:00.000Z" }

/-- Witness for C5: with no token, the run makes no fetch and publishes no
repo-stats output. -/
theorem run_no_fetch_without_token_or_identity_witness :
    (run hostNoToken).fetchCount = 0 ∧
    ∀ v, ("repo-stats", v) ∉ (run hostNoToken).outputs :=
  run_no_fetch_without_token_or_identity hostNoToken (Or.inl rfl)

/-- Claim C7: with who-to-greet resolving to "World" (either given or left
unset, since unset defaults to "World"), message-prefix resolving to "Hello"
(given or unset, defaulting to "Hello"), and no token, a full run publishes
the output message = "Hello, World!", publishes no repo-stats output, and
never invokes the repository-stats fetch. -/
theorem run_default_inputs_message (h : Host)
    (hw : hostInput h "who-to-greet" = "World" ∨ hostInput h "who-to-greet" = "")
    (hp : hostInput h "message-prefix" = "Hello" ∨ hostInput h "message-prefix" = "")
    (ht : resolvedToken h = "") (hso : h.setOutputError = none) :
    ("message", "Hello, World!") ∈ (run h).outputs ∧
    (∀ v, ("repo-stats", v) ∉ (run h).outputs) ∧ (run h).fetchCount = 0 := by
  have hw' : resolvedWho h = "World" := by
    rcases hw with hw | hw <;> simp [resolvedWho, jsOrDefault, hostInput] at hw ⊢ <;> simp [hw]
  have hp' : resolvedMsgPre h = "Hello" := by
    rcases hp with hp | hp <;> simp [resolvedMsgPre, jsOrDefault, hostInput] at hp ⊢ <;> simp [hp]
  have hg : greetingOf h = "Hello, World!" := by
    rw [greetingOf, hw', hp']
    rfl
  have hs : statsAttempted h = false := by simp [statsAttempted, truthy, ht]
  rcases hit : resolvedIncludeTime h <;> rcases hsw : h.summaryWriteFails <;>
    simp [run, runBody, setOutputOp, hso, hit, hsw, hs, hg, logInfo, logInfos, bind, Except.bind, pure, Except.pure]

/-- A host with who-to-greet and message-prefix left entirely unset. -/
def hostUnsetInputs : Host :=
  { store := emptyStore, env := fun _ => none,
    ctxOwner := "test-owner", ctxRepo := "test-repo",
    fetchResult := .error "down", setOutputError := none,
    summaryWriteFails := false, now := "2023-01-01T12:00:00.000Z" }

/-- Witness for C7: with both greeting inputs unset they default to "World"
and "Hello", the run publishes message = "Hello, World!", publishes no
repo-stats output, and makes no fetch. -/
theorem run_default_inputs_message_witness :
    ("message", "Hello, World!") ∈ (run hostUnsetInputs).outputs ∧
    (∀ v, ("repo-stats", v) ∉ (run hostUnsetInputs).outputs) ∧
    (run hostUnsetInputs).fetchCount = 0 :=
  run_default_inputs_message hostUnsetInputs (Or.inr rfl) (Or.inr rfl) rfl rfl

/-- Claim C8: when rendering through the rich summary sink fails (and no
earlier step threw), the run renders nothing through that sink and instead
writes the fallback block to the log: the heading line followed by one line
per data row of the built summary table (the Greeting row, optionally the
Timestamp row, optionally the repo-stats rows - the table minus its
Field|Value header row), after which the run still completes successfully
(no failure recorded, completion line logged). -/
theorem run_summary_fallback_logs (h : Host)
    (hso : h.setOutputError = none) (hsw : h.summaryWriteFails = true) :
    (run h).failed = none ∧ (run h).summaryRendered = none ∧
    (run h).infoLog =
      preFetchLog h ++ fetchLog h ++ fallbackLines (runRows h) ++
        ["\u201a\u00fa\u00d6 Action completed successfully!"] := by
  rcases hit : resolvedIncludeTime h <;> rcases hsa : statsAttempted h <;>
    rcases hf : h.fetchResult with e | d <;>
    simp [run, runBody, setOutputOp, hso, hsw, hit, hsa, hf, preFetchLog, fetchLog,
      runRows, runStats, dataRows, fallbackLines, statsRows, statsInfoLines,
      getRepoStats, logInfo, logInfos, bind, Except.bind, pure, Except.pure]

/-- A host on which the rich summary sink is unavailable. -/
def hostFallback : Host :=
  { hostNoToken with summaryWriteFails := true }

/-- Witness for C8: on the host without a rich summary sink the run logs the
fallback block and completes successfully. -/
theorem run_summary_fallback_logs_witness :
    (run hostFallback).failed = none ∧ (run hostFallback).summaryRendered = none ∧
    (run hostFallback).infoLog =
      preFetchLog hostFallback ++ fetchLog hostFallback ++
        fallbackLines (runRows hostFallback) ++
        ["\u201a\u00fa\u00d6 Action completed successfully!"] :=
  run_summary_fallback_logs hostFallback rfl rfl

/-- Helper shared by the secrecy development: when output-setting does not
throw, the info log of a run begins with exactly the pre-fetch lines. -/
theorem run_infoLog_take_preFetch (h : Host) (hso : h.setOutputError = none) :
    (run h).infoLog.take (preFetchLog h).length = preFetchLog h := by
  rcases hit : resolvedIncludeTime h <;> rcases hsa : statsAttempted h <;>
    rcases hf : h.fetchResult with e | d <;> rcases hsw : h.summaryWriteFails <;>
    simp [run, runBody, setOutputOp, hso, hit, hsa, hf, hsw, preFetchLog, fetchLog,
      runStats, dataRows, fallbackLines, statsRows, statsInfoLines, startLines,
      getRepoStats, logInfo, logInfos, bind, Except.bind, pure, Except.pure]

/-- Claim C9: the informational log lines of a run record only the presence
of the token (as Yes or No), never its value: two runs that agree on the
other resolved inputs and the clock and whose github-token values are both
truthy or both falsy emit identical informational log lines up to the point
of the stats fetch. -/
theorem run_token_secrecy (h1 h2 : Host)
    (hso1 : h1.setOutputError = none) (hso2 : h2.setOutputError = none)
    (hw : resolvedWho h1 = resolvedWho h2)
    (hp : resolvedMsgPre h1 = resolvedMsgPre h2)
    (hit : resolvedIncludeTime h1 = resolvedIncludeTime h2)
    (hn : h1.now = h2.now)
    (htk : truthy (resolvedToken h1) = truthy (resolvedToken h2)) :
    (run h1).infoLog.take (preFetchLog h1).length =
      (run h2).infoLog.take (preFetchLog h2).length := by
  rw [run_infoLog_take_preFetch h1 hso1, run_infoLog_take_preFetch h2 hso2]
  simp [preFetchLog, startLines, greetingOf, hw, hp, hit, hn, htk]

/-- A host holding one non-empty token value. -/
def hostTokA : Host :=
  { store := fun n => if n = "github-token" then "token-alpha" else "",
    env := fun _ => none, ctxOwner := "test-owner", ctxRepo := "test-repo",
    fetchResult := .error "down", setOutputError := none,
    summaryWriteFails := false, now := "2023-01-01T12:00:00.000Z" }

/-- The same host holding a different non-empty token value. -/
def hostTokB : Host :=
  { hostTokA with store := fun n => if n = "github-token" then "token-beta" else "" }

/-- Witness for C9: two runs differing only in their non-empty token value
emit identical informational log lines up to the stats fetch. -/
theorem run_token_secrecy_witness :
    (run hostTokA).infoLog.take (preFetchLog hostTokA).length =
      (run hostTokB).infoLog.take (preFetchLog hostTokB).length :=
  run_token_secrecy hostTokA hostTokB rfl rfl rfl rfl rfl rfl rfl

end HelloAction
